import Mathlib

/-!
Shallow embedding of the `pakr-assert-size` proc-macro crate (src/lib.rs).

The crate exposes two attribute macros, `assert_size` and `assert_size_fits`,
sharing one argument parser (`impl Parse for ExpSize`).  Each macro parses its
attribute argument as a single integer literal fitting `usize`, parses the
annotated item as a struct declaration (`syn::ItemStruct`), builds a
diagnostic message, and emits a `const _ : () = assert!(...)` compile-time
check followed by the original struct declaration.

We model token streams as lists of tokens, syntactic items as an inductive
with a structured struct case, and the emitted code as a record holding the
assertion's shape (binding, compared type, comparison operator, bound,
message) followed by the struct item.  Errors from `parse_macro_input!` are
modelled with an explicit error type: `malformedArgument` for the argument
parser and `notAStruct` for the `ItemStruct` parse.
-/

namespace PakrAssertSize

/-- Bit width of the host platform's `usize`. -/
def usizeBits : Nat := 64

/-- Largest value representable in `usize`; `base10_parse::<usize>` fails
beyond it. -/
def usizeMax : Nat := 2 ^ usizeBits - 1

/-- A token of the attribute-argument token stream.  `intLit` carries an
integer value: syn's literal parsing folds a leading minus sign into the
numeric literal, so a negative argument such as `-5` reaches
`base10_parse::<usize>` as a single (negative) literal and fails there. -/
inductive Token where
  | intLit (value : Int)
  | identTok (name : String)
  | strLit (s : String)
  | punct (c : Char)
  deriving DecidableEq, Repr

/-- Is this token an integer literal? -/
def Token.isIntLit : Token → Bool
  | Token.intLit _ => true
  | _ => false

/-- Errors surfaced by `parse_macro_input!` in the two macros. -/
inductive MacroError where
  | malformedArgument
  | notAStruct
  deriving DecidableEq, Repr

/-- `impl Parse for ExpSize` (src/lib.rs lines 12-17) as invoked through
`parse_macro_input!(attr as ExpSize)`: parse one integer literal, convert it
with `base10_parse::<usize>` (fails when negative or above `usize::MAX`),
and require the whole token stream to be consumed (extra tokens fail). -/
def ExpSize.parse (attr : List Token) : Except MacroError Nat :=
  match attr with
  | [Token.intLit v] =>
      if 0 ≤ v ∧ v ≤ (usizeMax : Int) then Except.ok v.toNat
      else Except.error MacroError.malformedArgument
  | _ => Except.error MacroError.malformedArgument

/-- One field of a struct declaration: its attributes (including doc
comments), visibility, name and type, kept as surface syntax. -/
structure Field where
  attrs : List String
  vis : String
  name : String
  ty : String
  deriving DecidableEq, Repr

/-- A struct declaration (`syn::ItemStruct`): attributes (doc comments are
attributes), visibility, identifier, generic parameters and fields. -/
structure StructItem where
  attrs : List String
  vis : String
  ident : String
  generics : List String
  fields : List Field
  deriving DecidableEq, Repr

/-- An annotated item, as handed to a proc-macro attribute.  Only the struct
case parses as `syn::ItemStruct`; the others model enums, unions, functions
and any remaining item kinds. -/
inductive Item where
  | structItem (s : StructItem)
  | enumItem (ident : String)
  | unionItem (ident : String)
  | fnItem (ident : String)
  | otherItem (descr : String)
  deriving DecidableEq, Repr

/-- Is the item a struct declaration? -/
def Item.isStruct : Item → Bool
  | Item.structItem _ => true
  | _ => false

/-- `parse_macro_input!(item as ItemStruct)`: succeeds exactly on a struct
declaration, any other item kind is a parse error. -/
def parseItemStruct : Item → Except MacroError StructItem
  | Item.structItem s => Except.ok s
  | _ => Except.error MacroError.notAStruct

/-- The binding position of an emitted `const` item: `const _` or a named
`const NAME`. -/
inductive Binding where
  | underscore
  | named (name : String)
  deriving DecidableEq, Repr

/-- Identifiers a binding makes reachable from outside the expansion. -/
def Binding.introduced : Binding → List String
  | Binding.underscore => []
  | Binding.named n => [n]

/-- The type written inside `std::mem::size_of::<...>()`: a path head and
its attached generic arguments (empty list = bare identifier). -/
structure TypeExpr where
  name : String
  genericArgs : List String
  deriving DecidableEq, Repr

/-- Comparison operator of the emitted assertion. -/
inductive Cmp where
  | eq
  | le
  deriving DecidableEq, Repr

/-- The emitted compile-time check
`const <binding> : () = assert!(std::mem::size_of::<sizeOfArg>() <cmp> bound, message)`. -/
structure Assertion where
  binding : Binding
  sizeOfArg : TypeExpr
  cmp : Cmp
  bound : Nat
  message : String
  deriving DecidableEq, Repr

/-- The token stream a successful macro invocation returns: the checker
`const` item followed by the struct declaration. -/
structure Output where
  checker : Assertion
  item : StructItem
  deriving DecidableEq, Repr

/-- One top-level unit of the returned token stream. -/
inductive OutUnit where
  | check (a : Assertion)
  | decl (s : StructItem)
  deriving DecidableEq, Repr

/-- The returned token stream in emission order: checker first, then the
struct declaration. -/
def Output.units (o : Output) : List OutUnit :=
  [OutUnit.check o.checker, OutUnit.decl o.item]

/-- Names the expansion introduces that are reachable from outside it (the
struct's own name was already present in the input). -/
def Output.introducedNames (o : Output) : List String :=
  o.checker.binding.introduced

/-- The apostrophe character, as used in the diagnostic messages. -/
def sq : String := String.singleton (Char.ofNat 39)

/-- `assert_size` (src/lib.rs lines 78-93): parse the attribute argument as
`ExpSize`, then the item as `ItemStruct`, build the message
`size of '<id>' is not <size> bytes`, and emit
`const _ : () = assert!(std::mem::size_of::<#id>() == #size, #message);`
followed by the original struct item. -/
def assert_size (attr : List Token) (item : Item) : Except MacroError Output :=
  match ExpSize.parse attr with
  | Except.error e => Except.error e
  | Except.ok size =>
    match parseItemStruct item with
    | Except.error e => Except.error e
    | Except.ok struct_item =>
      let id := struct_item.ident
      let message :=
        "size of " ++ sq ++ id ++ sq ++ " is not " ++ toString size ++ " bytes"
      Except.ok
        { checker :=
            { binding := Binding.underscore
              sizeOfArg := { name := id, genericArgs := [] }
              cmp := Cmp.eq
              bound := size
              message := message }
          item := struct_item }

/-- `assert_size_fits` (src/lib.rs lines 151-166): identical pipeline, but
the message is `'<id>' does not fit in <size> bytes` and the emitted
comparison is `<=`. -/
def assert_size_fits (attr : List Token) (item : Item) : Except MacroError Output :=
  match ExpSize.parse attr with
  | Except.error e => Except.error e
  | Except.ok size =>
    match parseItemStruct item with
    | Except.error e => Except.error e
    | Except.ok struct_item =>
      let id := struct_item.ident
      let message :=
        sq ++ id ++ sq ++ " does not fit in " ++ toString size ++ " bytes"
      Except.ok
        { checker :=
            { binding := Binding.underscore
              sizeOfArg := { name := id, genericArgs := [] }
              cmp := Cmp.le
              bound := size
              message := message }
          item := struct_item }

/-- Truth value of the emitted assertion under a size oracle `size_of`
giving the host compiler's computed size for each type expression. -/
def Assertion.eval (a : Assertion) (size_of : TypeExpr → Nat) : Bool :=
  match a.cmp with
  | Cmp.eq => size_of a.sizeOfArg == a.bound
  | Cmp.le => decide (size_of a.sizeOfArg ≤ a.bound)

/-- A compilation unit containing the expansion compiles exactly when the
emitted assertion evaluates to true. -/
def Output.compiles (o : Output) (size_of : TypeExpr → Nat) : Bool :=
  o.checker.eval size_of

/-- A sample struct item: two u64 fields under `repr(C, packed)`, 16 bytes. -/
def structA : StructItem :=
  { attrs := ["repr(C, packed)"]
    vis := ""
    ident := "A"
    generics := []
    fields :=
      [ { attrs := [], vis := "", name := "field1", ty := "u64" },
        { attrs := [], vis := "", name := "field2", ty := "u64" } ] }

/-- A size oracle declaring every type 16 bytes. -/
def oracle16 : TypeExpr → Nat := fun _ => 16

/-- A size oracle declaring every type 24 bytes. -/
def oracle24 : TypeExpr → Nat := fun _ => 24

/-- A sample generic struct item with one type parameter. -/
def structG : StructItem :=
  { attrs := []
    vis := ""
    ident := "G"
    generics := ["T"]
    fields := [ { attrs := [], vis := "", name := "x", ty := "T" } ] }

/-- Helper: the argument parser only ever fails with `malformedArgument`. -/
theorem ExpSize.parse_error_malformed (attr : List Token) (e : MacroError)
    (h : ExpSize.parse attr = Except.error e) : e = MacroError.malformedArgument := by
  unfold ExpSize.parse at h
  split at h
  · split at h
    · exact absurd h (by simp)
    · exact (Except.error.inj h).symm
  · exact (Except.error.inj h).symm

/-- C1: for every struct declaration and every argument value the parser
accepts, `assert_size` succeeds, emits an equality assertion whose bound is
the parsed value, and a unit containing the expansion compiles exactly when
the computed size of the struct equals that value (and fails to compile
exactly when it differs); the struct itself is emitted as declared. -/
theorem assert_size_exact_iff (attr : List Token) (s : StructItem) (n : Nat)
    (h : ExpSize.parse attr = Except.ok n) (size_of : TypeExpr → Nat) :
    ∃ out, assert_size attr (Item.structItem s) = Except.ok out ∧
      out.checker.cmp = Cmp.eq ∧ out.checker.bound = n ∧
      (out.compiles size_of = false ↔
        size_of { name := s.ident, genericArgs := [] } ≠ n) ∧
      (out.compiles size_of = true ↔
        size_of { name := s.ident, genericArgs := [] } = n) ∧
      out.item = s := by
  unfold assert_size
  rw [h]
  refine ⟨_, rfl, rfl, rfl, ?_, ?_, rfl⟩ <;>
    simp [Output.compiles, Assertion.eval]

/-- Witness for C1 at a concrete invocation: argument 16, the sample
two-field struct, a size oracle reporting 16 bytes. -/
theorem assert_size_exact_iff_witness :
    ∃ out, assert_size [Token.intLit 16] (Item.structItem structA) = Except.ok out ∧
      out.checker.cmp = Cmp.eq ∧ out.checker.bound = 16 ∧
      (out.compiles oracle16 = false ↔
        oracle16 { name := structA.ident, genericArgs := [] } ≠ 16) ∧
      (out.compiles oracle16 = true ↔
        oracle16 { name := structA.ident, genericArgs := [] } = 16) ∧
      out.item = structA :=
  assert_size_exact_iff [Token.intLit 16] structA 16 (by rfl) oracle16

/-- C2: for every struct declaration and every argument value the parser
accepts, `assert_size_fits` succeeds and emits a less-than-or-equal
assertion, so the unit fails to compile exactly when the computed size
strictly exceeds the bound; every size at or below the bound is accepted,
including a bound set loosely above the true size. -/
theorem assert_size_fits_le_iff (attr : List Token) (s : StructItem) (m : Nat)
    (h : ExpSize.parse attr = Except.ok m) (size_of : TypeExpr → Nat) :
    ∃ out, assert_size_fits attr (Item.structItem s) = Except.ok out ∧
      out.checker.cmp = Cmp.le ∧ out.checker.bound = m ∧
      (out.compiles size_of = false ↔
        m < size_of { name := s.ident, genericArgs := [] }) ∧
      (size_of { name := s.ident, genericArgs := [] } ≤ m →
        out.compiles size_of = true) ∧
      out.item = s := by
  unfold assert_size_fits
  rw [h]
  refine ⟨_, rfl, rfl, rfl, ?_, ?_, rfl⟩ <;>
    simp [Output.compiles, Assertion.eval]

/-- Witness for C2 at a concrete invocation: maximum 32, the sample struct,
a size oracle reporting 24 bytes (the loose-bound slack case). -/
theorem assert_size_fits_le_iff_witness :
    ∃ out, assert_size_fits [Token.intLit 32] (Item.structItem structA) = Except.ok out ∧
      out.checker.cmp = Cmp.le ∧ out.checker.bound = 32 ∧
      (out.compiles oracle24 = false ↔
        32 < oracle24 { name := structA.ident, genericArgs := [] }) ∧
      (oracle24 { name := structA.ident, genericArgs := [] } ≤ 32 →
        out.compiles oracle24 = true) ∧
      out.item = structA :=
  assert_size_fits_le_iff [Token.intLit 32] structA 32 (by rfl) oracle24

/-- C3: the argument parser fails with `malformedArgument` exactly when the
token sequence is empty, has more than one token, is a single non-integer
token, or is a single integer literal that is negative or exceeds
`usize::MAX`; on a single in-range non-negative literal it returns the
parsed value.  (A source-level negative argument reaches the parser as a
single negative literal, since syn folds the minus sign into the literal.) -/
theorem ExpSize_parse_spec (attr : List Token) :
    (ExpSize.parse attr = Except.error MacroError.malformedArgument ↔
      attr = [] ∨ 1 < attr.length ∨
      (∃ t, attr = [t] ∧ t.isIntLit = false) ∨
      (∃ v, attr = [Token.intLit v] ∧ (v < 0 ∨ (usizeMax : Int) < v))) ∧
    (∀ v : Int, 0 ≤ v → v ≤ (usizeMax : Int) →
      ExpSize.parse [Token.intLit v] = Except.ok v.toNat) := by
  constructor
  · match attr with
    | [] => simp [ExpSize.parse]
    | [Token.intLit v] =>
      simp only [ExpSize.parse]
      by_cases hc : 0 ≤ v ∧ v ≤ (usizeMax : Int)
      · rw [if_pos hc]
        constructor
        · intro hfail
          exact Except.noConfusion hfail
        · intro hcases
          exfalso
          rcases hcases with h0 | h1 | ⟨t, ht, hi⟩ | ⟨w, hw, hr⟩
          · simp at h0
          · simp at h1
          · simp only [List.cons.injEq, and_true] at ht
            rw [← ht] at hi
            simp [Token.isIntLit] at hi
          · simp only [List.cons.injEq, Token.intLit.injEq, and_true] at hw
            rw [← hw] at hr
            omega
      · rw [if_neg hc]
        constructor
        · intro _
          refine Or.inr (Or.inr (Or.inr ⟨v, rfl, ?_⟩))
          omega
        · intro _
          rfl
    | [Token.identTok x] => simp [ExpSize.parse, Token.isIntLit]
    | [Token.strLit x] => simp [ExpSize.parse, Token.isIntLit]
    | [Token.punct c] => simp [ExpSize.parse, Token.isIntLit]
    | t1 :: t2 :: rest => simp [ExpSize.parse]
  · intro v h0 hmax
    simp only [ExpSize.parse]
    rw [if_pos ⟨h0, hmax⟩]

/-- C4: when the argument parses but the annotated item is not a struct
declaration, both transforms fail with `notAStruct` and emit no output. -/
theorem not_a_struct_error (attr : List Token) (item : Item) (n : Nat)
    (hattr : ExpSize.parse attr = Except.ok n) (hitem : item.isStruct = false) :
    assert_size attr item = Except.error MacroError.notAStruct ∧
    assert_size_fits attr item = Except.error MacroError.notAStruct := by
  cases item <;>
    simp_all [assert_size, assert_size_fits, parseItemStruct, Item.isStruct]

/-- Witness for C4: argument 8 on an enum declaration. -/
theorem not_a_struct_error_witness :
    assert_size [Token.intLit 8] (Item.enumItem "E") =
      Except.error MacroError.notAStruct ∧
    assert_size_fits [Token.intLit 8] (Item.enumItem "E") =
      Except.error MacroError.notAStruct :=
  not_a_struct_error [Token.intLit 8] (Item.enumItem "E") 8 (by rfl) (by rfl)

/-- C5: the diagnostic message built by `assert_size` is exactly
`size of '<Name>' is not <N> bytes`, and the one built by
`assert_size_fits` is exactly `'<Name>' does not fit in <N> bytes`, with
the struct identifier and the parsed value substituted. -/
theorem diagnostic_message_format (attr : List Token) (s : StructItem) (n : Nat)
    (h : ExpSize.parse attr = Except.ok n) :
    ∃ out out2,
      assert_size attr (Item.structItem s) = Except.ok out ∧
      out.checker.message =
        "size of " ++ sq ++ s.ident ++ sq ++ " is not " ++ toString n ++ " bytes" ∧
      assert_size_fits attr (Item.structItem s) = Except.ok out2 ∧
      out2.checker.message =
        sq ++ s.ident ++ sq ++ " does not fit in " ++ toString n ++ " bytes" := by
  unfold assert_size assert_size_fits
  rw [h]
  exact ⟨_, _, rfl, rfl, rfl, rfl⟩

/-- Witness for C5: argument 24 on the sample struct named `A`. -/
theorem diagnostic_message_format_witness :
    ∃ out out2,
      assert_size [Token.intLit 24] (Item.structItem structA) = Except.ok out ∧
      out.checker.message =
        "size of " ++ sq ++ structA.ident ++ sq ++ " is not " ++ toString 24 ++ " bytes" ∧
      assert_size_fits [Token.intLit 24] (Item.structItem structA) = Except.ok out2 ∧
      out2.checker.message =
        sq ++ structA.ident ++ sq ++ " does not fit in " ++ toString 24 ++ " bytes" :=
  diagnostic_message_format [Token.intLit 24] structA 24 (by rfl)

/-- C6: on success each transform returns the injected check followed
immediately by the original struct declaration preserved verbatim — name,
generics, fields, visibility and remaining attributes unchanged. -/
theorem output_preserves_item (attr : List Token) (s : StructItem) (n : Nat)
    (h : ExpSize.parse attr = Except.ok n) :
    ∃ out out2,
      assert_size attr (Item.structItem s) = Except.ok out ∧
      out.units = [OutUnit.check out.checker, OutUnit.decl s] ∧
      out.item = s ∧ out.item.ident = s.ident ∧ out.item.generics = s.generics ∧
      out.item.fields = s.fields ∧ out.item.vis = s.vis ∧ out.item.attrs = s.attrs ∧
      assert_size_fits attr (Item.structItem s) = Except.ok out2 ∧
      out2.units = [OutUnit.check out2.checker, OutUnit.decl s] ∧
      out2.item = s := by
  unfold assert_size assert_size_fits
  rw [h]
  exact ⟨_, _, rfl, rfl, rfl, rfl, rfl, rfl, rfl, rfl, rfl, rfl, rfl⟩

/-- Witness for C6: argument 16 on the sample struct. -/
theorem output_preserves_item_witness :
    ∃ out out2,
      assert_size [Token.intLit 16] (Item.structItem structA) = Except.ok out ∧
      out.units = [OutUnit.check out.checker, OutUnit.decl structA] ∧
      out.item = structA ∧ out.item.ident = structA.ident ∧
      out.item.generics = structA.generics ∧
      out.item.fields = structA.fields ∧ out.item.vis = structA.vis ∧
      out.item.attrs = structA.attrs ∧
      assert_size_fits [Token.intLit 16] (Item.structItem structA) = Except.ok out2 ∧
      out2.units = [OutUnit.check out2.checker, OutUnit.decl structA] ∧
      out2.item = structA :=
  output_preserves_item [Token.intLit 16] structA 16 (by rfl)

/-- C7: on success the injected check of either transform is bound to the
discarded binding `const _`, so the expansion introduces no identifier
reachable from outside it. -/
theorem anonymous_binding (attr : List Token) (s : StructItem) (n : Nat)
    (h : ExpSize.parse attr = Except.ok n) :
    ∃ out out2,
      assert_size attr (Item.structItem s) = Except.ok out ∧
      out.checker.binding = Binding.underscore ∧
      out.introducedNames = [] ∧
      assert_size_fits attr (Item.structItem s) = Except.ok out2 ∧
      out2.checker.binding = Binding.underscore ∧
      out2.introducedNames = [] := by
  unfold assert_size assert_size_fits
  rw [h]
  exact ⟨_, _, rfl, rfl, rfl, rfl, rfl, rfl⟩

/-- Witness for C7: argument 16 on the sample struct. -/
theorem anonymous_binding_witness :
    ∃ out out2,
      assert_size [Token.intLit 16] (Item.structItem structA) = Except.ok out ∧
      out.checker.binding = Binding.underscore ∧
      out.introducedNames = [] ∧
      assert_size_fits [Token.intLit 16] (Item.structItem structA) = Except.ok out2 ∧
      out2.checker.binding = Binding.underscore ∧
      out2.introducedNames = [] :=
  anonymous_binding [Token.intLit 16] structA 16 (by rfl)

/-- C8: both transforms are deterministic — identical argument tokens and
identical item tokens produce identical results (outputs or errors). -/
theorem deterministic_transforms (attr attr2 : List Token) (item item2 : Item)
    (ha : attr = attr2) (hi : item = item2) :
    assert_size attr item = assert_size attr2 item2 ∧
    assert_size_fits attr item = assert_size_fits attr2 item2 := by
  subst ha
  subst hi
  exact ⟨rfl, rfl⟩

/-- Witness for C8 at a concrete invocation. -/
theorem deterministic_transforms_witness :
    assert_size [Token.intLit 16] (Item.structItem structA) =
      assert_size [Token.intLit 16] (Item.structItem structA) ∧
    assert_size_fits [Token.intLit 16] (Item.structItem structA) =
      assert_size_fits [Token.intLit 16] (Item.structItem structA) :=
  deterministic_transforms [Token.intLit 16] [Token.intLit 16]
    (Item.structItem structA) (Item.structItem structA) rfl rfl

/-- C9: for a struct with generic parameters, the emitted assertion of
either transform queries the size of the bare identifier with no generic
arguments attached. -/
theorem generic_struct_bare_ident (attr : List Token) (s : StructItem) (n : Nat)
    (h : ExpSize.parse attr = Except.ok n) (_hg : s.generics ≠ []) :
    ∃ out out2,
      assert_size attr (Item.structItem s) = Except.ok out ∧
      out.checker.sizeOfArg.name = s.ident ∧
      out.checker.sizeOfArg.genericArgs = [] ∧
      assert_size_fits attr (Item.structItem s) = Except.ok out2 ∧
      out2.checker.sizeOfArg.name = s.ident ∧
      out2.checker.sizeOfArg.genericArgs = [] := by
  unfold assert_size assert_size_fits
  rw [h]
  exact ⟨_, _, rfl, rfl, rfl, rfl, rfl, rfl⟩

/-- Witness for C9: a one-parameter generic struct. -/
theorem generic_struct_bare_ident_witness :
    ∃ out out2,
      assert_size [Token.intLit 8] (Item.structItem structG) = Except.ok out ∧
      out.checker.sizeOfArg.name = structG.ident ∧
      out.checker.sizeOfArg.genericArgs = [] ∧
      assert_size_fits [Token.intLit 8] (Item.structItem structG) = Except.ok out2 ∧
      out2.checker.sizeOfArg.name = structG.ident ∧
      out2.checker.sizeOfArg.genericArgs = [] :=
  generic_struct_bare_ident [Token.intLit 8] structG 8 (by rfl)
    (by simp [structG])

/-- C10: the argument is parsed before the item in both transforms, so when
the argument is malformed and the item is also not a struct, the reported
error is `malformedArgument`, not `notAStruct`. -/
theorem argument_parsed_before_item (attr : List Token) (item : Item) (e : MacroError)
    (ha : ExpSize.parse attr = Except.error e) (_hi : item.isStruct = false) :
    assert_size attr item = Except.error MacroError.malformedArgument ∧
    assert_size_fits attr item = Except.error MacroError.malformedArgument := by
  have he := ExpSize.parse_error_malformed attr e ha
  subst he
  unfold assert_size assert_size_fits
  rw [ha]
  exact ⟨rfl, rfl⟩

/-- Witness for C10: a string argument on an enum declaration. -/
theorem argument_parsed_before_item_witness :
    assert_size [Token.strLit "x"] (Item.enumItem "E") =
      Except.error MacroError.malformedArgument ∧
    assert_size_fits [Token.strLit "x"] (Item.enumItem "E") =
      Except.error MacroError.malformedArgument :=
  argument_parsed_before_item [Token.strLit "x"] (Item.enumItem "E")
    MacroError.malformedArgument (by rfl) (by rfl)

end PakrAssertSize
